import Mathlib

/-!
# Verification of the browser-automation launcher scripts

Shallow embedding of the logic of `run_browser_automation.py`,
`browser_use_setup.py` and `termux_browser_use_setup.py`:

* provider selection (`BrowserAutomationLauncher.get_llm_instance`),
* the task runner (`BrowserAutomationLauncher.run_automation_task`),
* the credentials-file updater (`BrowserAutomationLauncher.update_env_file`),
* installation checking (`BrowserAutomationLauncher.check_installation` and
  `install_browser_use`),
* the setup drivers (`BrowserUseSetup.run_full_setup` and
  `TermuxBrowserUseSetup.run_complete_setup`).

External collaborators (the `browser_use` agent, `subprocess` package-manager
calls, the LLM client constructors) are opaque to the scripts; they are
modelled by explicit parameters recording their outcomes.  Python exceptions
are modelled with `Except String`.
-/

set_option autoImplicit false

deriving instance DecidableEq for Except

namespace Automee

/-- The four LLM providers the launcher knows, in the order their
environment variables are tested by `get_llm_instance`. -/
inductive Provider where
  | gemini
  | groq
  | openai
  | anthropic
deriving DecidableEq

/-- The process environment as seen by the launcher: each variable is either
unset (`none`) or set to a string (`some s`, possibly empty).  Mirrors the
variables read (or, per the spec, supposedly read) by
`run_browser_automation.py`. -/
structure Env where
  gemini_api_key : Option String
  groq_api_key : Option String
  openai_api_key : Option String
  anthropic_api_key : Option String
  headless_var : Option String
  browser_slow_mo : Option String
  browser_timeout : Option String
deriving DecidableEq

/-- Python truthiness of an `os.getenv` result: `None` and the empty string
are falsy, every other string is truthy.  This is the test performed by
`if os.getenv("..."):` in `get_llm_instance`. -/
def truthy : Option String → Bool
  | none => false
  | some s => !s.isEmpty

/-- `os.getenv` for the four provider credential variables. -/
def getenv (env : Env) : Provider → Option String
  | .gemini => env.gemini_api_key
  | .groq => env.groq_api_key
  | .openai => env.openai_api_key
  | .anthropic => env.anthropic_api_key

/-- The value returned by `get_llm_instance`: which provider was chosen, the
hard-coded model name, the API key handed to the client constructor, and the
human-readable label printed by the task runner.  The lazy
`pip install` fallback in each branch only affects the environment, not the
returned value, so it is not modelled. -/
structure LLMInstance where
  provider : Provider
  model : String
  api_key : String
  label : String
deriving DecidableEq

/-- `BrowserAutomationLauncher.get_llm_instance`
(`run_browser_automation.py`, lines 127-193): an `if/elif` chain that tests
`GEMINI_API_KEY`, then `GROQ_API_KEY`, then `OPENAI_API_KEY`, then
`ANTHROPIC_API_KEY` for truthiness and returns the client for the first
truthy one; if none is truthy it raises
`ValueError("No valid API key found. Please set up an API key first.")`,
modelled as `Except.error`. -/
def get_llm_instance (env : Env) : Except String LLMInstance :=
  if truthy env.gemini_api_key then
    .ok ⟨.gemini, "gemini-1.5-flash", env.gemini_api_key.getD "", "Gemini (FREE)"⟩
  else if truthy env.groq_api_key then
    .ok ⟨.groq, "mixtral-8x7b-32768", env.groq_api_key.getD "", "Groq (FREE)"⟩
  else if truthy env.openai_api_key then
    .ok ⟨.openai, "gpt-4", env.openai_api_key.getD "", "OpenAI GPT-4"⟩
  else if truthy env.anthropic_api_key then
    .ok ⟨.anthropic, "claude-3-sonnet-20240229", env.anthropic_api_key.getD "", "Claude 3"⟩
  else
    .error "No valid API key found. Please set up an API key first."

/-- The fixed priority order, exactly the order of the `if/elif` branches in
the source. -/
def providerPriority : List Provider := [.gemini, .groq, .openai, .anthropic]

/-- Position of a provider in the priority order (0 = highest priority). -/
def priorityIndex : Provider → Nat
  | .gemini => 0
  | .groq => 1
  | .openai => 2
  | .anthropic => 3

/-- The `LLMInstance` that the branch for provider `p` of
`get_llm_instance` builds. -/
def mkInst (env : Env) : Provider → LLMInstance
  | .gemini => ⟨.gemini, "gemini-1.5-flash", env.gemini_api_key.getD "", "Gemini (FREE)"⟩
  | .groq => ⟨.groq, "mixtral-8x7b-32768", env.groq_api_key.getD "", "Groq (FREE)"⟩
  | .openai => ⟨.openai, "gpt-4", env.openai_api_key.getD "", "OpenAI GPT-4"⟩
  | .anthropic => ⟨.anthropic, "claude-3-sonnet-20240229", env.anthropic_api_key.getD "", "Claude 3"⟩

/-- The providers whose credential variable is set to a non-empty string, in
priority order. -/
def configuredList (env : Env) : List Provider :=
  providerPriority.filter (fun p => truthy (getenv env p))

/-- Closed form of `get_llm_instance`: it returns the client of the head of
`configuredList`, or raises when no provider is configured. -/
theorem get_llm_instance_eq_head (env : Env) :
    get_llm_instance env =
      match configuredList env with
      | [] => .error "No valid API key found. Please set up an API key first."
      | p :: _ => .ok (mkInst env p) := by
  rcases env with ⟨g, q, o, a, hv, sm, tv⟩
  simp only [get_llm_instance, configuredList, providerPriority, getenv]
  cases hg : truthy g <;> cases hq : truthy q <;> cases ho : truthy o <;>
    cases ha : truthy a <;> simp [hg, hq, ho, ha, mkInst]

/-- The provider recorded in the instance built for `p` is `p` itself. -/
theorem mkInst_provider (env : Env) (p : Provider) : (mkInst env p).provider = p := by
  cases p <;> rfl

/-- The head of `configuredList` is configured and has the least priority
index among all configured providers. -/
theorem configuredList_head_minimal (env : Env) (p : Provider) (rest : List Provider)
    (h : configuredList env = p :: rest) :
    truthy (getenv env p) = true ∧
      ∀ q, truthy (getenv env q) = true → priorityIndex p ≤ priorityIndex q := by
  rcases env with ⟨g, qk, o, a, hv, sm, tv⟩
  simp only [configuredList, providerPriority, getenv] at h
  cases hg : truthy g <;> cases hq : truthy qk <;> cases ho : truthy o <;>
      cases ha : truthy a <;>
    simp [hg, hq, ho, ha] at h <;>
    (obtain ⟨hp, -⟩ := h
     subst hp
     refine ⟨by simp [getenv, hg, hq, ho, ha], ?_⟩
     intro q hq'
     cases q <;> simp_all [getenv, priorityIndex])

/-- Every provider occurs in the priority list. -/
theorem mem_providerPriority (p : Provider) : p ∈ providerPriority := by
  cases p <;> simp [providerPriority]

/-! ## The task runner (`run_automation_task`) -/

/-- Numeric value of a non-empty all-digit character list; `none` otherwise. -/
def digitsVal (l : List Char) : Option Nat :=
  if l.isEmpty then none
  else if l.all Char.isDigit then
    some (l.foldl (fun a c => a * 10 + (c.toNat - 48)) 0)
  else none

/-- Strip leading and trailing whitespace from a character list. -/
def stripChars (l : List Char) : List Char :=
  ((l.dropWhile Char.isWhitespace).reverse.dropWhile Char.isWhitespace).reverse

/-- The stripped input of `int()`: an optional single `+`/`-` sign followed
by one or more decimal digits; anything else is rejected. -/
def pyIntCore (t : List Char) : Option Int :=
  match t with
  | '-' :: rest => (digitsVal rest).map (fun n => -(n : Int))
  | '+' :: rest => (digitsVal rest).map (fun n => (n : Int))
  | _ => (digitsVal t).map (fun n => (n : Int))

/-- Models the Python builtin `int()` applied to a string: surrounding
whitespace is stripped, an optional single `+`/`-` sign is allowed, and the
remainder must be one or more ASCII decimal digits; anything else raises
`ValueError`.  (CPython also accepts underscores between digits and non-ASCII
digits and other Unicode whitespace; no theorem below touches such
inputs.) -/
def pyInt (s : String) : Except String Int :=
  match pyIntCore (stripChars s.data) with
  | some n => .ok n
  | none => .error ("invalid literal for int() with base 10: " ++ s)

/-- The slow-down value computed by `int(os.getenv("BROWSER_SLOW_MO", 1000))`
in `run_automation_task` (line 208): when the variable is unset `os.getenv`
yields the integer default `1000` (and `int(1000) = 1000`); when it is set —
even to the empty string — its string value is handed to `int()`, which may
raise `ValueError`. -/
def browserSlowMo (env : Env) : Except String Int :=
  match env.browser_slow_mo with
  | none => .ok 1000
  | some s => pyInt s

/-- The keyword arguments the task runner passes to the external `Browser`
constructor (line 206-209): only `headless` and `slow_mo`; no timeout
argument appears in the call. -/
structure BrowserConfig where
  headless : Bool
  slow_mo : Int
deriving DecidableEq

/-- Observable steps of one `run_automation_task` invocation, in the order
the source performs them. `providerSelected` is the `"🤖 Using {provider}"`
print after `get_llm_instance` returns, `taskCompleted`/`taskFailed` are the
final success/failure prints of the `try`/`except`. -/
inductive Event where
  | providerSelected (label : String)
  | browserCreated (cfg : BrowserConfig)
  | agentCreated (task : String)
  | arunAwaited
  | taskCompleted (result : String)
  | taskFailed (msg : String)
deriving DecidableEq

/-- Outcome of one `run_automation_task` invocation: the ordered trace of
observable steps and the Python return value (`some result` from the `try`
body, `none` from the `except` handler). -/
structure RunResult where
  events : List Event
  retval : Option String
deriving DecidableEq

/-- `BrowserAutomationLauncher.run_automation_task`
(`run_browser_automation.py`, lines 195-227).  The whole body is one
`try`/`except Exception` block: select the LLM (may raise `ValueError`),
print the provider, build the `Browser` from the `headless` *parameter* and
`int(os.getenv("BROWSER_SLOW_MO", 1000))` (the `int` call may raise), build
the `Agent`, `await agent.arun()` exactly once, and return its result; any
exception is caught, printed as a task failure, and `None` is returned.  The
external `agent.arun()` is opaque and is modelled by the parameter `arun`
(its result, or the exception it raises).  The `from browser_use import ...`
statements are assumed to succeed (the launcher only reaches this method
after `check_installation`). -/
def run_automation_task (env : Env) (task : String) (headless : Bool)
    (arun : Except String String) : RunResult :=
  match get_llm_instance env with
  | .error e => ⟨[.taskFailed e], none⟩
  | .ok inst =>
    match browserSlowMo env with
    | .error e => ⟨[.providerSelected inst.label, .taskFailed e], none⟩
    | .ok sm =>
      let cfg : BrowserConfig := ⟨headless, sm⟩
      match arun with
      | .error e =>
        ⟨[.providerSelected inst.label, .browserCreated cfg, .agentCreated task,
           .arunAwaited, .taskFailed e], none⟩
      | .ok r =>
        ⟨[.providerSelected inst.label, .browserCreated cfg, .agentCreated task,
           .arunAwaited, .taskCompleted r], some r⟩

/-! ## The credentials-file updater (`update_env_file`) -/

/-- The line written for a key/value pair, as formatted by the source
(`f"{key_name}={key_value}\n"`). -/
def envLine (key_name key_value : String) : String :=
  key_name ++ "=" ++ key_value ++ "\n"

/-- Python's `str.startswith`: the character sequence of `pre` is a prefix of
the character sequence of `line`. -/
def startswith (line pre : String) : Bool :=
  pre.data.isPrefixOf line.data

/-- The loop body of `update_env_file` (lines 113-122) acting on the list of
lines returned by `readlines()` (each line keeps its trailing newline): scan
the lines in order, replace the first line that starts with `"{key_name}="`
and stop (`break`); if no line matches, append one new line. -/
def update_env_lines (key_name key_value : String) : List String → List String
  | [] => [envLine key_name key_value]
  | line :: rest =>
    if startswith line (key_name ++ "=") then
      envLine key_name key_value :: rest
    else
      line :: update_env_lines key_name key_value rest

/-- `BrowserAutomationLauncher.update_env_file` (lines 107-125) acting on the
state of the `.env` file, modelled as `none` (file absent) or `some lines`
(file present with those lines).  The whole body is guarded by
`if self.env_file.exists():`, so an absent file is left absent and nothing is
written or created. -/
def update_env_file (key_name key_value : String) :
    Option (List String) → Option (List String)
  | none => none
  | some lines => some (update_env_lines key_name key_value lines)

/-! ## The setup drivers (`run_full_setup` / `run_complete_setup`)

Each setup step is a method returning a boolean; the drivers pair step
names with step functions.  A step's outcome is modelled as the boolean it
returns, so a driver takes a list of `(name, outcome)` pairs. -/

/-- What a setup driver produced: the names of the steps it ran, in order,
and the `failed_steps` list it accumulated (printed together at the end of
setup when non-empty). -/
structure SetupOutcome where
  executed : List String
  failed_steps : List String
deriving DecidableEq

/-- The driver loop shared verbatim by `BrowserUseSetup.run_full_setup`
(`browser_use_setup.py`, lines 419-423) and
`TermuxBrowserUseSetup.run_complete_setup`
(`termux_browser_use_setup.py`, lines 430-435):

    failed_steps = []
    for step_name, step_func in steps:
        if not step_func():
            failed_steps.append(step_name)

Every step is called unconditionally; a `False` return only appends the
step's name to `failed_steps`. -/
def runSetupSteps : List (String × Bool) → SetupOutcome
  | [] => ⟨[], []⟩
  | (name, ok) :: rest =>
    let r := runSetupSteps rest
    ⟨name :: r.executed, if ok then r.failed_steps else name :: r.failed_steps⟩

/-- The fixed step list of `BrowserUseSetup.run_full_setup`
(`browser_use_setup.py`, lines 409-417). -/
def full_setup_step_names : List String :=
  ["Python Version Check", "UV Package Manager", "Browser-Use Installation",
   "Chromium Installation", "Environment Setup", "Demo Script Creation",
   "Advanced Script Creation"]

/-- The fixed step list of `TermuxBrowserUseSetup.run_complete_setup`
(`termux_browser_use_setup.py`, lines 419-428). -/
def termux_setup_step_names : List String :=
  ["Package Update", "Dependencies Installation", "Python Packages",
   "Playwright Setup", "Display Setup", "Environment Configuration",
   "Demo Script Creation", "Instructions Creation"]

/-- `BrowserUseSetup.run_full_setup` driving its fixed step list;
`outcomes` gives the boolean each step function returns. -/
def run_full_setup (outcomes : List Bool) : SetupOutcome :=
  runSetupSteps (full_setup_step_names.zip outcomes)

/-- `TermuxBrowserUseSetup.run_complete_setup`: first
`check_termux_environment` (returning early, running no step, when it
fails), then the same driver loop over the Termux step list. -/
def run_complete_setup (termux_env_ok : Bool) (outcomes : List Bool) :
    Option SetupOutcome :=
  if termux_env_ok then
    some (runSetupSteps (termux_setup_step_names.zip outcomes))
  else
    none

/-! ## Installation checking (`check_installation`) -/

/-- Outcomes of the external operations `check_installation` and
`install_browser_use` may perform: whether the two imports succeed and
whether each `subprocess.run(..., check=True)` package-manager call exits
with status 0 (`false` means `subprocess.CalledProcessError` is raised). -/
structure InstallWorld where
  browser_use_importable : Bool
  playwright_importable : Bool
  pip_install_playwright_ok : Bool
  playwright_install_chromium_ok : Bool
  pip_install_browser_use_ok : Bool
  install_browser_use_chromium_ok : Bool
deriving DecidableEq

/-- `BrowserAutomationLauncher.install_browser_use`
(`run_browser_automation.py`, lines 44-54): both `subprocess.run` calls are
inside `try ... except subprocess.CalledProcessError`, which prints the
failure and returns `False`; on success it returns `True`.  No exception
escapes. -/
def install_browser_use (w : InstallWorld) : Bool :=
  w.pip_install_browser_use_ok && w.install_browser_use_chromium_ok

/-- `BrowserAutomationLauncher.check_installation`
(`run_browser_automation.py`, lines 23-42).  If `import browser_use` fails it
delegates to `install_browser_use` (which never raises).  Otherwise, if
`import playwright` fails, it runs `pip install playwright` and
`playwright install chromium` with `check=True` and **no** surrounding
`try`: a non-zero exit raises `subprocess.CalledProcessError` out of the
method (modelled as `.error`), which nothing in `main` catches. -/
def check_installation (w : InstallWorld) : Except String Bool :=
  if !w.browser_use_importable then
    .ok (install_browser_use w)
  else if !w.playwright_importable then
    if !w.pip_install_playwright_ok then
      .error "subprocess.CalledProcessError: pip install playwright"
    else if !w.playwright_install_chromium_ok then
      .error "subprocess.CalledProcessError: playwright install chromium"
    else
      .ok true
  else
    .ok true

/-! ## Auxiliary lemmas -/

/-- `priorityIndex` is injective. -/
theorem priorityIndex_inj (p q : Provider) (h : priorityIndex p = priorityIndex q) :
    p = q := by
  cases p <;> cases q <;> simp_all [priorityIndex]

/-- The API key stored in the instance built for `p` is exactly the raw value
of `p`'s environment variable. -/
theorem mkInst_api_key (env : Env) (p : Provider) :
    (mkInst env p).api_key = (getenv env p).getD "" := by
  cases p <;> rfl

/-- A variable set to a non-empty string is truthy. -/
theorem truthy_of_some_ne (o : Option String) (s : String) (hset : o = some s)
    (hne : s ≠ "") : truthy o = true := by
  subst hset
  have hs : s.isEmpty = false := by
    cases hs : s.isEmpty
    · rfl
    · exact absurd ((String.isEmpty_iff s).mp hs) hne
  simp [truthy, hs]

/-! ## Claim theorems -/

/-- C1: for every credential set in which two or more providers have a
non-empty value, `get_llm_instance` succeeds and returns the
highest-priority configured provider under the fixed order
Gemini > Groq > OpenAI > Anthropic (least `priorityIndex` among the
configured providers). -/
theorem get_llm_instance_picks_highest_priority (env : Env)
    (h : 2 ≤ (configuredList env).length) :
    ∃ inst, get_llm_instance env = .ok inst ∧
      truthy (getenv env inst.provider) = true ∧
      ∀ q, truthy (getenv env q) = true →
        priorityIndex inst.provider ≤ priorityIndex q := by
  cases hc : configuredList env with
  | nil => rw [hc] at h; simp at h
  | cons p rest =>
    obtain ⟨hp, hmin⟩ := configuredList_head_minimal env p rest hc
    refine ⟨mkInst env p, ?_, ?_, ?_⟩
    · rw [get_llm_instance_eq_head, hc]
    · rw [mkInst_provider]; exact hp
    · rw [mkInst_provider]; exact hmin

/-- A credential set configuring Gemini and Groq, used to instantiate the
multiple-provider claim. -/
def envGeminiGroq : Env :=
  ⟨some "gem-key", some "groq-key", none, none, none, none, none⟩

/-- Witness for C1 at a credential set with two configured providers. -/
theorem get_llm_instance_picks_highest_priority_witness :
    2 ≤ (configuredList envGeminiGroq).length ∧
      ∃ inst, get_llm_instance envGeminiGroq = .ok inst ∧
        truthy (getenv envGeminiGroq inst.provider) = true ∧
        ∀ q, truthy (getenv envGeminiGroq q) = true →
          priorityIndex inst.provider ≤ priorityIndex q :=
  ⟨by decide, get_llm_instance_picks_highest_priority envGeminiGroq (by decide)⟩

/-- C2: for every credential set in which exactly one provider variable has a
non-empty value, `get_llm_instance` returns that provider (with its model,
raw key and label). -/
theorem get_llm_instance_single_provider (env : Env) (p : Provider)
    (h : configuredList env = [p]) :
    get_llm_instance env = .ok (mkInst env p) ∧ (mkInst env p).provider = p := by
  rw [get_llm_instance_eq_head, h]
  exact ⟨rfl, mkInst_provider env p⟩

/-- A credential set configuring only Anthropic. -/
def envOnlyAnthropic : Env :=
  ⟨none, some "", none, some "claude-key", none, none, none⟩

/-- Witness for C2 at a credential set whose only non-empty provider variable
is `ANTHROPIC_API_KEY` (with `GROQ_API_KEY` set but empty). -/
theorem get_llm_instance_single_provider_witness :
    configuredList envOnlyAnthropic = [Provider.anthropic] ∧
      (get_llm_instance envOnlyAnthropic = .ok (mkInst envOnlyAnthropic .anthropic) ∧
        (mkInst envOnlyAnthropic .anthropic).provider = .anthropic) :=
  ⟨by decide, get_llm_instance_single_provider envOnlyAnthropic .anthropic (by decide)⟩

/-- C3: for every credential set in which no provider variable has a
non-empty value, `get_llm_instance` raises the missing-credential
`ValueError`, and `run_automation_task` catches it immediately: its trace is
the single failure print, so no `Browser` and no `Agent` is ever
constructed, and the Python return value is `None`. -/
theorem run_automation_task_no_credentials (env : Env) (task : String)
    (headless : Bool) (arun : Except String String)
    (h : configuredList env = []) :
    get_llm_instance env =
        .error "No valid API key found. Please set up an API key first." ∧
      run_automation_task env task headless arun =
        ⟨[.taskFailed "No valid API key found. Please set up an API key first."],
          none⟩ ∧
      (∀ cfg, Event.browserCreated cfg ∉
        (run_automation_task env task headless arun).events) ∧
      (∀ t, Event.agentCreated t ∉
        (run_automation_task env task headless arun).events) := by
  have hinst : get_llm_instance env =
      .error "No valid API key found. Please set up an API key first." := by
    rw [get_llm_instance_eq_head, h]
  have hrun : run_automation_task env task headless arun =
      ⟨[.taskFailed "No valid API key found. Please set up an API key first."],
        none⟩ := by
    simp [run_automation_task, hinst]
  refine ⟨hinst, hrun, ?_, ?_⟩ <;> intro x <;> simp [hrun]

/-- A credential set in which every provider variable is unset or empty. -/
def envNoKeys : Env :=
  ⟨none, some "", none, none, some "true", some "1000", none⟩

/-- Witness for C3 at a credential set with no non-empty provider variable. -/
theorem run_automation_task_no_credentials_witness :
    configuredList envNoKeys = [] ∧
      (get_llm_instance envNoKeys =
          .error "No valid API key found. Please set up an API key first." ∧
        run_automation_task envNoKeys "open example.com" false (.ok "r") =
          ⟨[.taskFailed "No valid API key found. Please set up an API key first."],
            none⟩ ∧
        (∀ cfg, Event.browserCreated cfg ∉
          (run_automation_task envNoKeys "open example.com" false (.ok "r")).events) ∧
        (∀ t, Event.agentCreated t ∉
          (run_automation_task envNoKeys "open example.com" false (.ok "r")).events)) :=
  ⟨by decide,
    run_automation_task_no_credentials envNoKeys "open example.com" false (.ok "r")
      (by decide)⟩

/-- C10: `get_llm_instance` performs no validation of a secret's content:
whenever a provider variable holds *any* non-empty string — for example the
placeholder `"your_gemini_api_key_here"` that `BrowserUseSetup.setup_env_file`
writes into the credentials file — selection succeeds, the chosen provider's
raw variable value is passed through as the API key, and if the set provider
is the highest-priority configured one it is exactly the one selected. -/
theorem get_llm_instance_no_key_validation (env : Env) (p : Provider) (s : String)
    (hset : getenv env p = some s) (hne : s ≠ "") :
    ∃ inst, get_llm_instance env = .ok inst ∧
      inst.api_key = (getenv env inst.provider).getD "" ∧
      truthy (getenv env inst.provider) = true ∧
      ((∀ q, truthy (getenv env q) = true → priorityIndex p ≤ priorityIndex q) →
        inst = mkInst env p) := by
  have hp : truthy (getenv env p) = true := truthy_of_some_ne _ s hset hne
  have hmem : p ∈ configuredList env := by
    simp [configuredList, List.mem_filter, mem_providerPriority, hp]
  cases hc : configuredList env with
  | nil => rw [hc] at hmem; simp at hmem
  | cons hd rest =>
    obtain ⟨hhd, hmin⟩ := configuredList_head_minimal env hd rest hc
    refine ⟨mkInst env hd, ?_, ?_, ?_, ?_⟩
    · rw [get_llm_instance_eq_head, hc]
    · rw [mkInst_provider]; exact mkInst_api_key env hd
    · rw [mkInst_provider]; exact hhd
    · intro hpmin
      have h1 := hmin p hp
      have h2 := hpmin hd hhd
      rw [priorityIndex_inj hd p (le_antisymm h1 h2)]

/-- The credential set produced by loading the `.env` file that
`BrowserUseSetup.setup_env_file` writes: `GEMINI_API_KEY` holds the literal
placeholder text. -/
def envPlaceholder : Env :=
  ⟨some "your_gemini_api_key_here", none, none, none, none, none, none⟩

/-- Witness for C10: the placeholder text counts as a configured credential
and selects Gemini, with the placeholder passed through as the API key. -/
theorem get_llm_instance_no_key_validation_witness :
    getenv envPlaceholder .gemini = some "your_gemini_api_key_here" ∧
      "your_gemini_api_key_here" ≠ "" ∧
      ∃ inst, get_llm_instance envPlaceholder = .ok inst ∧
        inst.api_key = (getenv envPlaceholder inst.provider).getD "" ∧
        truthy (getenv envPlaceholder inst.provider) = true ∧
        ((∀ q, truthy (getenv envPlaceholder q) = true →
            priorityIndex .gemini ≤ priorityIndex q) →
          inst = mkInst envPlaceholder .gemini) :=
  ⟨rfl, by decide,
    get_llm_instance_no_key_validation envPlaceholder .gemini
      "your_gemini_api_key_here" rfl (by decide)⟩

/-- When no line matches, the loop of `update_env_file` falls through and one
new line is appended. -/
theorem update_env_lines_append (k v : String) (lines : List String)
    (h : lines.all (fun l => !startswith l (k ++ "=")) = true) :
    update_env_lines k v lines = lines ++ [envLine k v] := by
  induction lines with
  | nil => rfl
  | cons line rest ih =>
    simp only [List.all_cons, Bool.and_eq_true, Bool.not_eq_true'] at h
    simp [update_env_lines, h.1, ih (by simpa using h.2)]

/-- When line `i` is the first line matching `"{key_name}="`, the loop of
`update_env_file` replaces exactly that line and `break`s. -/
theorem update_env_lines_replace (k v : String) (lines : List String) (i : Nat)
    (hi : i < lines.length)
    (hbefore : (lines.take i).all (fun l => !startswith l (k ++ "=")) = true)
    (hmatch : ∀ l, lines[i]? = some l → startswith l (k ++ "=") = true) :
    update_env_lines k v lines = lines.set i (envLine k v) := by
  induction lines generalizing i with
  | nil => simp at hi
  | cons line rest ih =>
    cases i with
    | zero =>
      have := hmatch line (by simp)
      simp [update_env_lines, this]
    | succ n =>
      simp only [List.take_succ_cons, List.all_cons, Bool.and_eq_true,
        Bool.not_eq_true'] at hbefore
      have hrec := ih n (by simpa using hi) (by simpa using hbefore.2)
        (fun l hl => hmatch l (by simpa using hl))
      simp [update_env_lines, hbefore.1, hrec]

/-- C5: on an existing credentials file, `update_env_file` replaces the first
line that starts with `"{key}="` in place — every other line keeps its
position and content and the line count is unchanged — and when no line
starts with `"{key}="` it appends exactly one new line. -/
theorem update_env_file_replace_or_append (k v : String) (lines : List String) :
    (lines.all (fun l => !startswith l (k ++ "=")) = true →
        update_env_file k v (some lines) = some (lines ++ [envLine k v])) ∧
    (∀ i, i < lines.length →
        (lines.take i).all (fun l => !startswith l (k ++ "=")) = true →
        (∀ l, lines[i]? = some l → startswith l (k ++ "=") = true) →
        update_env_file k v (some lines) = some (lines.set i (envLine k v)) ∧
          (update_env_lines k v lines).length = lines.length ∧
          ∀ j, j ≠ i → (update_env_lines k v lines)[j]? = lines[j]?) := by
  constructor
  · intro h
    simp [update_env_file, update_env_lines_append k v lines h]
  · intro i hi hbefore hmatch
    have hrepl := update_env_lines_replace k v lines i hi hbefore hmatch
    refine ⟨by simp [update_env_file, hrepl], ?_, ?_⟩
    · rw [hrepl]; exact List.length_set lines i (envLine k v)
    · intro j hj
      rw [hrepl]
      exact List.getElem?_set_ne (fun he => hj he.symm)

/-- Contents of a `.env` file (with trailing newlines, as `readlines()`
yields them) used to instantiate the updater claims. -/
def envFileLines : List String :=
  ["# Browser-Use API Configuration\n", "GEMINI_API_KEY=\n",
   "OPENAI_API_KEY=\n", "HEADLESS=false\n"]

/-- Witness for C5: replacing the present key `OPENAI_API_KEY` rewrites only
line 2, and updating the absent key `GROQ_API_KEY` appends one line. -/
theorem update_env_file_replace_or_append_witness :
    update_env_file "GROQ_API_KEY" "g1" (some envFileLines) =
        some (envFileLines ++ ["GROQ_API_KEY=g1\n"]) ∧
      update_env_file "OPENAI_API_KEY" "sk-2" (some envFileLines) =
        some (envFileLines.set 2 "OPENAI_API_KEY=sk-2\n") ∧
      (update_env_lines "OPENAI_API_KEY" "sk-2" envFileLines).length =
        envFileLines.length ∧
      ∀ j, j ≠ 2 →
        (update_env_lines "OPENAI_API_KEY" "sk-2" envFileLines)[j]? =
          envFileLines[j]? := by
  refine ⟨?_, ?_⟩
  · exact (update_env_file_replace_or_append "GROQ_API_KEY" "g1" envFileLines).1
      (by decide)
  · exact (update_env_file_replace_or_append "OPENAI_API_KEY" "sk-2"
      envFileLines).2 2 (by decide) (by decide) (by decide)

/-- C9: when the `.env` file does not exist, `update_env_file` is a complete
no-op for every key/value pair: the body is guarded by
`if self.env_file.exists():`, so the file stays absent, nothing is written,
and the method returns normally. -/
theorem update_env_file_absent_noop (k v : String) :
    update_env_file k v none = none := rfl

/-- The driver loop runs every step and collects exactly the names of the
failing steps, in order. -/
theorem runSetupSteps_spec (steps : List (String × Bool)) :
    (runSetupSteps steps).executed = steps.map Prod.fst ∧
      (runSetupSteps steps).failed_steps =
        (steps.filter (fun s => !s.2)).map Prod.fst := by
  induction steps with
  | nil => exact ⟨rfl, rfl⟩
  | cons s rest ih =>
    obtain ⟨name, ok⟩ := s
    cases ok <;> simp [runSetupSteps, ih.1, ih.2]

/-- C7: in both setup drivers a failing step never prevents a later step:
every step of the fixed list is executed, in order, whatever the outcomes
are; each failure only lands in the aggregate `failed_steps` list, which is
exactly the failing steps in order and is what the driver reports at the end
of setup. -/
theorem setup_drivers_run_every_step (outcomes toutcomes : List Bool)
    (h : outcomes.length = full_setup_step_names.length)
    (ht : toutcomes.length = termux_setup_step_names.length) :
    (run_full_setup outcomes).executed = full_setup_step_names ∧
      (run_full_setup outcomes).failed_steps =
        ((full_setup_step_names.zip outcomes).filter (fun s => !s.2)).map Prod.fst ∧
      ∃ r, run_complete_setup true toutcomes = some r ∧
        r.executed = termux_setup_step_names ∧
        r.failed_steps =
          ((termux_setup_step_names.zip toutcomes).filter (fun s => !s.2)).map
            Prod.fst := by
  refine ⟨?_, (runSetupSteps_spec _).2, ?_⟩
  · rw [run_full_setup, (runSetupSteps_spec _).1]
    exact List.map_fst_zip _ _ (le_of_eq h.symm)
  · refine ⟨runSetupSteps (termux_setup_step_names.zip toutcomes), rfl, ?_,
      (runSetupSteps_spec _).2⟩
    rw [(runSetupSteps_spec _).1]
    exact List.map_fst_zip _ _ (le_of_eq ht.symm)

/-- Witness for C7, with the UV and Chromium steps failing on the PC driver
and the package-update step failing on the Termux driver. -/
theorem setup_drivers_run_every_step_witness :
    [true, false, true, false, true, true, true].length =
        full_setup_step_names.length ∧
      [false, true, true, true, true, true, true, true].length =
        termux_setup_step_names.length ∧
      ((run_full_setup [true, false, true, false, true, true, true]).executed =
          full_setup_step_names ∧
        (run_full_setup [true, false, true, false, true, true, true]).failed_steps =
          ((full_setup_step_names.zip
            [true, false, true, false, true, true, true]).filter
              (fun s => !s.2)).map Prod.fst ∧
        ∃ r, run_complete_setup true [false, true, true, true, true, true, true, true] =
            some r ∧
          r.executed = termux_setup_step_names ∧
          r.failed_steps =
            ((termux_setup_step_names.zip
              [false, true, true, true, true, true, true, true]).filter
                (fun s => !s.2)).map Prod.fst) :=
  ⟨by decide, by decide,
    setup_drivers_run_every_step [true, false, true, false, true, true, true]
      [false, true, true, true, true, true, true, true] (by decide) (by decide)⟩

/-- The install world in which `browser-use` is importable, `playwright` is
not, and `pip install playwright` exits with a non-zero status. -/
def worldPipFails : InstallWorld := ⟨true, false, false, true, true, true⟩

/-- C8 (code bug): `check_installation` runs its two Playwright-installing
`subprocess.run(..., check=True)` calls outside any `try`, so when
`pip install playwright` fails the `subprocess.CalledProcessError` escapes
the method uncaught (and nothing in `main` catches it — the process
crashes), contradicting "every failure ... caught ... and surfaced as a
printed message".  By contrast the sibling `install_browser_use` catches the
same failure and returns `False`. -/
theorem check_installation_uncaught_subprocess_error :
    check_installation worldPipFails =
        .error "subprocess.CalledProcessError: pip install playwright" ∧
      install_browser_use ⟨false, false, false, true, false, true⟩ = false := by
  decide

/-- Recognizer for the provider-selection step in a trace. -/
def isProviderSelected : Event → Bool
  | .providerSelected _ => true
  | _ => false

/-- A credential set with Gemini configured but `BROWSER_SLOW_MO` set to a
non-integer string. -/
def envBadSlowMo : Env :=
  ⟨some "gk", none, none, none, none, some "fast", none⟩

/-- C4 counterexample: with a valid provider (Gemini configured) and a
non-empty task string, a set but non-integer `BROWSER_SLOW_MO` makes
`int(os.getenv("BROWSER_SLOW_MO", 1000))` raise before the `Agent` exists:
`agent.arun` is awaited zero times in that invocation, not exactly once. -/
theorem run_automation_task_zero_awaits_cex :
    get_llm_instance envBadSlowMo = .ok (mkInst envBadSlowMo .gemini) ∧
      "open example.com" ≠ "" ∧
      (run_automation_task envBadSlowMo "open example.com" false
          (.ok "r")).events.count .arunAwaited = 0 := by
  decide

/-- C4 amended: in every task-runner invocation with a valid provider,
`agent.arun` is awaited at most once, provider selection happens exactly once
(never revisited); whenever the `BROWSER_SLOW_MO` value also parses as an
integer (in particular whenever the variable is unset), `arun` is awaited
exactly once and its outcome ends the invocation: a result is returned
unmodified, an error is caught and reported as the failure print with `None`
returned, with no retry — while a non-integer `BROWSER_SLOW_MO` fails the
invocation before the agent is built, with zero awaits. -/
theorem run_automation_task_single_await (env : Env) (task : String)
    (headless : Bool) (arun : Except String String) (inst : LLMInstance)
    (hok : get_llm_instance env = .ok inst) :
    (run_automation_task env task headless arun).events.count .arunAwaited ≤ 1 ∧
      (run_automation_task env task headless arun).events.countP
          isProviderSelected = 1 ∧
      ∀ sm, browserSlowMo env = .ok sm →
        run_automation_task env task headless arun =
          match arun with
          | .ok r => ⟨[.providerSelected inst.label,
              .browserCreated ⟨headless, sm⟩, .agentCreated task, .arunAwaited,
              .taskCompleted r], some r⟩
          | .error e => ⟨[.providerSelected inst.label,
              .browserCreated ⟨headless, sm⟩, .agentCreated task, .arunAwaited,
              .taskFailed e], none⟩ := by
  cases hsm : browserSlowMo env with
  | error e =>
    refine ⟨?_, ?_, ?_⟩
    · simp [run_automation_task, hok, hsm, List.count_cons]
    · simp [run_automation_task, hok, hsm, List.countP_cons, isProviderSelected]
    · intro sm h'
      exact Except.noConfusion h'
  | ok sm =>
    cases arun with
    | error e =>
      refine ⟨?_, ?_, ?_⟩
      · simp [run_automation_task, hok, hsm, List.count_cons]
      · simp [run_automation_task, hok, hsm, List.countP_cons, isProviderSelected]
      · intro sm' h'
        injection h' with h2
        subst h2
        simp [run_automation_task, hok, hsm]
    | ok r =>
      refine ⟨?_, ?_, ?_⟩
      · simp [run_automation_task, hok, hsm, List.count_cons]
      · simp [run_automation_task, hok, hsm, List.countP_cons, isProviderSelected]
      · intro sm' h'
        injection h' with h2
        subst h2
        simp [run_automation_task, hok, hsm]

/-- A credential set with only Gemini configured and no browser variables
set. -/
def envGeminiOnly : Env :=
  ⟨some "gk", none, none, none, none, none, none⟩

/-- Witness for the amended C4 at a Gemini-only credential set with a failing
`arun`: one selection, one await, the failure reported, `None` returned. -/
theorem run_automation_task_single_await_witness :
    (run_automation_task envGeminiOnly "open example.com" false
        (.error "net down")).events.count .arunAwaited ≤ 1 ∧
      (run_automation_task envGeminiOnly "open example.com" false
          (.error "net down")).events.countP isProviderSelected = 1 ∧
      run_automation_task envGeminiOnly "open example.com" false
          (.error "net down") =
        ⟨[.providerSelected "Gemini (FREE)", .browserCreated ⟨false, 1000⟩,
          .agentCreated "open example.com", .arunAwaited,
          .taskFailed "net down"], none⟩ := by
  have h := run_automation_task_single_await envGeminiOnly "open example.com"
    false (.error "net down") (mkInst envGeminiOnly .gemini) (by decide)
  exact ⟨h.1, h.2.1, h.2.2 1000 (by decide)⟩

/-- A credential set with Gemini configured, `HEADLESS=true` and
`BROWSER_TIMEOUT=60000` (as the Termux setup writes them). -/
def envHeadlessTimeout : Env :=
  ⟨some "gk", none, none, none, some "true", none, some "60000"⟩

/-- `envHeadlessTimeout` with `HEADLESS` and `BROWSER_TIMEOUT` deleted. -/
def envHeadlessTimeoutErased : Env :=
  ⟨some "gk", none, none, none, none, none, none⟩

/-- C6 counterexample: with `HEADLESS=true` and `BROWSER_TIMEOUT=60000` in
the environment, an invocation of the task runner (whose call sites pass no
`headless` argument, leaving the parameter default `False`) constructs the
browser with `headless = false` and no timeout, and the whole outcome is
identical to the one in an environment without those two variables: the
browser is not configured from `HEADLESS` or `BROWSER_TIMEOUT`. -/
theorem browser_ignores_headless_and_timeout_cex :
    truthy envHeadlessTimeout.headless_var = true ∧
      envHeadlessTimeout.browser_timeout = some "60000" ∧
      run_automation_task envHeadlessTimeout "open example.com" false (.ok "r") =
        ⟨[.providerSelected "Gemini (FREE)", .browserCreated ⟨false, 1000⟩,
          .agentCreated "open example.com", .arunAwaited, .taskCompleted "r"],
          some "r"⟩ ∧
      run_automation_task envHeadlessTimeout "open example.com" false (.ok "r") =
        run_automation_task envHeadlessTimeoutErased "open example.com" false
          (.ok "r") := by
  decide

/-- `env` with the `HEADLESS` and `BROWSER_TIMEOUT` variables overwritten. -/
def setDisplayVars (env : Env) (hv tv : Option String) : Env :=
  ⟨env.gemini_api_key, env.groq_api_key, env.openai_api_key,
    env.anthropic_api_key, hv, env.browser_slow_mo, tv⟩

/-- C6 amended: every task-runner invocation configures the browser from the
`headless` *parameter* (default `False`; `HEADLESS` is never read) and from
`BROWSER_SLOW_MO` alone among the environment variables — absent means the
default `1000`, a set integer string is parsed, and a set non-integer value
(including the empty string) raises inside `int()` and fails the invocation
before the browser is built; no timeout is passed to the browser and
`BROWSER_TIMEOUT` is never read, so the outcome is invariant under arbitrary
changes to `HEADLESS` and `BROWSER_TIMEOUT`. -/
theorem browser_config_from_param_and_slow_mo (env : Env) (task : String)
    (headless : Bool) (arun : Except String String) (hv tv : Option String) :
    run_automation_task (setDisplayVars env hv tv) task headless arun =
        run_automation_task env task headless arun ∧
      (env.browser_slow_mo = none → browserSlowMo env = .ok 1000) ∧
      ∀ inst, get_llm_instance env = .ok inst →
        (∀ sm, browserSlowMo env = .ok sm →
          Event.browserCreated ⟨headless, sm⟩ ∈
            (run_automation_task env task headless arun).events) ∧
        ∀ e, browserSlowMo env = .error e →
          run_automation_task env task headless arun =
            ⟨[.providerSelected inst.label, .taskFailed e], none⟩ := by
  refine ⟨?_, ?_, ?_⟩
  · rcases env with ⟨g, q, o, a, hv', sm, tv'⟩
    rfl
  · intro h
    simp [browserSlowMo, h]
  · intro inst hok
    constructor
    · intro sm hsm
      cases arun <;> simp [run_automation_task, hok, hsm]
    · intro e he
      simp [run_automation_task, hok, he]

/-- Witness for the amended C6: Gemini configured, `HEADLESS=true`,
`BROWSER_TIMEOUT=60000` and `BROWSER_SLOW_MO` unset — overwriting the two
unread variables changes nothing, the default slow-down applies, and the
browser is created from the parameter and the default. -/
theorem browser_config_from_param_and_slow_mo_witness :
    run_automation_task
          (setDisplayVars envHeadlessTimeout (some "false") (some "1"))
          "open example.com" false (.ok "r") =
        run_automation_task envHeadlessTimeout "open example.com" false
          (.ok "r") ∧
      browserSlowMo envHeadlessTimeout = .ok 1000 ∧
      Event.browserCreated ⟨false, 1000⟩ ∈
        (run_automation_task envHeadlessTimeout "open example.com" false
          (.ok "r")).events := by
  have h := browser_config_from_param_and_slow_mo envHeadlessTimeout
    "open example.com" false (.ok "r") (some "false") (some "1")
  exact ⟨h.1, h.2.1 rfl,
    (h.2.2 (mkInst envHeadlessTimeout .gemini) (by decide)).1 1000 (h.2.1 rfl)⟩

end Automee
